import Mathlib

/-!
Verification of the schema-introspection and default-value normalization core
(`describeTable` and friends). The repository ships the SQLite column
description types (`packages/core/src/dialects/sqlite/query-interface.types.ts`)
and the integration test
(`packages/core/test/integration/query-interface/describeTable.test.js`);
the facade, dialect readers and normalizer themselves are not part of the
excerpt, so they are modelled from the specification, with the test file as
the authority on observable behaviour (quoting format, per-dialect raw
defaults, error message).
-/

namespace Spec2Proof

/-- The single-quote character used by backend default-clause quoting. -/
def quoteChar : Char := Char.ofNat 39

/-- Raw default-clause value as reported by a backend catalog: the JS
`string | null | undefined` of `defaultValue.raw` in the spec's data model. -/
inductive RawDefault where
  | undef
  | nullv
  | text (s : String)
deriving DecidableEq

/-- Parsed default value: the JS `value | null | undefined` of
`defaultValue.parsed`. Decimal defaults stay strings to avoid precision loss. -/
inductive Parsed where
  | undef
  | nullv
  | str (s : String)
  | int (n : Int)
  | bool (b : Bool)
deriving DecidableEq

/-- The dual raw/parsed representation of a column default (spec section 3). -/
structure DefaultValue where
  raw : RawDefault
  parsed : Parsed
deriving DecidableEq

/-- Target data type descriptor handed to the normalizer. -/
inductive DataType where
  | string
  | text
  | integer
  | decimal (p s : Nat)
  | boolean
  | date
deriving DecidableEq

/-- Escape a literal for embedding in a quoted SQL default clause by doubling
single quotes; embeds the test fixture expression
`v.replaceAll(quote, quotequote)` (describeTable.test.js line 278). -/
def escapeChars : List Char → List Char
  | [] => []
  | c :: cs =>
    if c = quoteChar then quoteChar :: quoteChar :: escapeChars cs
    else c :: escapeChars cs

/-- Scan the remainder of a single-quoted SQL literal (the opening quote
already consumed), un-escaping doubled quotes; returns the literal's content
and the text following the closing quote. -/
def scanQuoted : List Char → Option (List Char × List Char)
  | [] => none
  | c :: cs =>
    if c = quoteChar then
      match cs with
      | [] => some ([], [])
      | c2 :: cs2 =>
        if c2 = quoteChar then
          (scanQuoted cs2).map (fun p => (quoteChar :: p.1, p.2))
        else some ([], cs)
    else (scanQuoted cs).map (fun p => (c :: p.1, p.2))

/-- Whether a trailing fragment is a type cast marker, `::...`. -/
def castStart (l : List Char) : Bool := l.take 2 = [':', ':']

/-- A quoted literal may be followed by nothing or by a trailing cast. -/
def castOk (l : List Char) : Bool := l.isEmpty || castStart l

/-- Characters of the SQL NULL keyword. -/
def nullChars : List Char := ['N', 'U', 'L', 'L']

/-- Whether a raw default clause is the unquoted SQL NULL keyword, optionally
followed by a cast (for example a NULL with a trailing varchar cast). -/
def isNullTok (l : List Char) : Bool :=
  l.take 4 = nullChars && castOk (l.drop 4)

/-- Strip the surrounding quotes (and optional trailing cast) from a quoted
literal, returning the un-escaped content; fails on anything not starting
with a quote. -/
def unquoteWithCast (l : List Char) : Option (List Char) :=
  match l with
  | [] => none
  | c :: rest =>
    if c = quoteChar then
      match scanQuoted rest with
      | some (content, after) => if castOk after then some content else none
      | none => none
    else none

/-- Non-empty run of decimal digits. -/
def digitsOnly (l : List Char) : Bool := !l.isEmpty && l.all (·.isDigit)

/-- Numeric value of a digit run. -/
def natOfDigits (l : List Char) : Nat :=
  l.foldl (fun n c => n * 10 + (c.toNat - 48)) 0

/-- Integer literal grammar: optional minus sign then digits. -/
def intLit (l : List Char) : Option Int :=
  match l with
  | [] => none
  | c :: r =>
    if c = '-' then
      if digitsOnly r then some (-(natOfDigits r : Int)) else none
    else
      if digitsOnly (c :: r) then some ((natOfDigits (c :: r) : Nat) : Int)
      else none

/-- Fixed-precision decimal literal grammar: optional minus sign, digits,
then an optional dot and fractional digits. -/
def decLit (l : List Char) : Bool :=
  let m := match l with
    | c :: r => if c = '-' then r else c :: r
    | [] => []
  let ip := m.takeWhile (·.isDigit)
  match m.dropWhile (·.isDigit) with
  | [] => !ip.isEmpty
  | c :: rest => !ip.isEmpty && c == '.' && digitsOnly rest

/-- Modelled from the spec: the literal-grammar part of the Default-Value
Normalizer (spec section 4.3, case 3 and 4), which is not part of the source
excerpt. Given the raw default-clause text and the declared data type it
decodes a recognized literal (stripping quotes and trailing casts,
un-escaping doubled quotes, distinguishing the unquoted NULL keyword from a
quoted string containing the characters NULL) and yields `Parsed.undef` for
anything else, never partially evaluating an expression. -/
def parseText (t : DataType) (s : String) : Parsed :=
  let l := s.data
  match t with
  | .string | .text =>
    match unquoteWithCast l with
    | some content => Parsed.str ⟨content⟩
    | none => if isNullTok l then Parsed.nullv else Parsed.undef
  | .integer =>
    if isNullTok l then Parsed.nullv
    else
      match intLit l with
      | some n => Parsed.int n
      | none =>
        match unquoteWithCast l with
        | some content =>
          match intLit content with
          | some n => Parsed.int n
          | none => Parsed.undef
        | none => Parsed.undef
  | .decimal _ _ =>
    if decLit l then Parsed.str s
    else if isNullTok l then Parsed.nullv
    else
      match unquoteWithCast l with
      | some content => if decLit content then Parsed.str ⟨content⟩ else Parsed.undef
      | none => Parsed.undef
  | .boolean =>
    if l = "true".data ∨ l = "TRUE".data then Parsed.bool true
    else if l = "false".data ∨ l = "FALSE".data then Parsed.bool false
    else if isNullTok l then Parsed.nullv
    else Parsed.undef
  | .date => if isNullTok l then Parsed.nullv else Parsed.undef

/-- Modelled from the spec: the Default-Value Normalizer contract
`normalize(rawDefault, dataType) -> {raw, parsed}` (spec section 4.3), not
part of the source excerpt. An absent raw default yields the doubly-undefined
pair, a catalog-reported SQL NULL yields the doubly-null pair, and textual
clauses keep the verbatim backend text as `raw` while `parsed` is decoded by
the literal grammar. -/
def normalize (rawDefault : RawDefault) (t : DataType) : DefaultValue :=
  match rawDefault with
  | .undef => ⟨RawDefault.undef, Parsed.undef⟩
  | .nullv => ⟨RawDefault.nullv, Parsed.nullv⟩
  | .text s => ⟨RawDefault.text s, parseText t s⟩

/-- Trailing varchar cast appended by the backend's rendering of string
defaults (describeTable.test.js line 278). -/
def castSuffix : List Char := ':' :: ':' :: "character varying".data

/-- The backend's rendering of a string default value: content with doubled
quotes, surrounded by quotes, followed by a cast; embeds the expected raw
value of describeTable.test.js line 278. -/
def renderString (v : String) : String :=
  ⟨quoteChar :: (escapeChars v.data ++ quoteChar :: castSuffix)⟩

/-- The backend's truthy/falsy literal token for a boolean default. -/
def renderBool (b : Bool) : String := if b then "true" else "false"

/-- Table identifier (spec section 3): a table name with an optional schema. -/
structure TableIdentifier where
  tableName : String
  schema : Option String
deriving DecidableEq

/-- Common catalog row shape produced by the per-dialect Raw Catalog Reader
(spec section 4.2): `name, type, nullable, default, isPrimaryKey,
isAutoIncrement, comment, enumValues`, plus the decoded type descriptor the
normalizer needs. -/
structure CatalogRow where
  name : String
  type : String
  nullable : Bool
  rawDefault : RawDefault
  dataType : DataType
  isPrimaryKey : Bool
  isAutoIncrement : Bool
  comment : Option String
  enumValues : Option (List String)
deriving DecidableEq

/-- Normalized per-column description (spec section 3). -/
structure ColumnDescription where
  type : String
  allowNull : Bool
  defaultValue : DefaultValue
  primaryKey : Bool
  autoIncrement : Bool
  comment : Option String
  special : Option (List String)
deriving DecidableEq

/-- Modelled from the spec: the Column Description Builder (spec section
4.5), not part of the source excerpt. Attaches row fields verbatim and
normalizes the default. -/
def buildColumn (r : CatalogRow) : ColumnDescription :=
  ⟨r.type, r.nullable, normalize r.rawDefault r.dataType, r.isPrimaryKey,
    r.isAutoIncrement, r.comment, r.enumValues⟩

/-- A backend catalog, seen as the rows its introspection queries return for
each resolved table identifier (empty list when the table does not exist). -/
abbrev Catalog := TableIdentifier → List CatalogRow

/-- The TableNotFoundError message (describeTable.test.js lines 70-75). -/
def tableNotFoundMessage (t : TableIdentifier) : String :=
  "No description found for table " ++ t.tableName ++
    (match t.schema with
      | some s => " in schema " ++ s
      | none => "") ++
    ". Check the table name and schema; remember, they _are_ case sensitive."

/-- Modelled from the spec: the Schema Introspection Facade core (spec
section 4.1), not part of the source excerpt. Zero catalog rows fail with
the TableNotFoundError message; otherwise every row becomes one entry of the
ordered column-description mapping. -/
def describeTable (c : Catalog) (t : TableIdentifier) :
    Except String (List (String × ColumnDescription)) :=
  let rows := c t
  if rows.isEmpty then Except.error (tableNotFoundMessage t)
  else Except.ok (rows.map (fun r => (r.name, buildColumn r)))

/-- The column list of a successful `describeTable` call (empty on failure). -/
def descCols (c : Catalog) (t : TableIdentifier) :
    List (String × ColumnDescription) :=
  match describeTable c t with
  | Except.ok cols => cols
  | Except.error _ => []

/-- First argument of the facade: a bare table name or a structured
identifier. -/
inductive TableRef where
  | name (s : String)
  | ident (t : TableIdentifier)

/-- Modelled from the spec: identifier resolution of the facade (spec section
4.1), not part of the source excerpt. A bare name takes the positional
schema argument if given, else the connection's default schema; a structured
identifier keeps its own schema, falling back to the positional argument and
then the default schema. -/
def resolveIdentifier (ref : TableRef) (posSchema defaultSchema : Option String) :
    TableIdentifier :=
  match ref with
  | .name s =>
    match posSchema with
    | some sch => ⟨s, some sch⟩
    | none => ⟨s, defaultSchema⟩
  | .ident t =>
    match t.schema with
    | some sch => ⟨t.tableName, some sch⟩
    | none =>
      match posSchema with
      | some sch => ⟨t.tableName, some sch⟩
      | none => ⟨t.tableName, defaultSchema⟩

/-- Modelled from the spec: the public `describeTable(identifier, schema?)`
entry point (spec sections 4.1 and 6), not part of the source excerpt. -/
def describeTableFacade (c : Catalog) (defaultSchema : Option String)
    (ref : TableRef) (posSchema : Option String) :
    Except String (List (String × ColumnDescription)) :=
  describeTable c (resolveIdentifier ref posSchema defaultSchema)

/-- The backends exercised by the test suite. -/
inductive Dialect where
  | postgres
  | mysql
  | mssql
  | sqlite
  | db2
  | ibmi
deriving DecidableEq

/-- Raw default the catalog reports for a column declared without a default:
sqlite omits the concept entirely, the other backends report SQL NULL
(describeTable.test.js lines 127-168, the username and isAdmin columns). -/
def catalogRawForNoDefault (d : Dialect) : RawDefault :=
  match d with
  | .sqlite => RawDefault.undef
  | _ => RawDefault.nullv

/-- Catalog row of the `isAdmin` boolean column declared without a default
(describeTable.test.js lines 87 and 156-168). -/
def isAdminRow (d : Dialect) : CatalogRow :=
  ⟨"isAdmin", "TINYINT(1)", true, catalogRawForNoDefault d, DataType.boolean,
    false, false, none, none⟩

/-- Catalog of the `_Users` fixture table, reduced to the `isAdmin` column
(describeTable.test.js lines 77-94). -/
def usersCatalog (d : Dialect) : Catalog := fun t =>
  if t = ⟨"_Users", none⟩ then [isAdminRow d] else []

/-- Catalog of the two same-named `my_tables` tables living in different
schemas (describeTable.test.js lines 21-68). -/
def myTablesCatalog : Catalog := fun t =>
  if t = ⟨"my_tables", some "test_meta"⟩ then
    [⟨"username2", "VARCHAR(255)", true, RawDefault.nullv, DataType.string,
      false, false, none, none⟩]
  else if t = ⟨"my_tables", none⟩ then
    [⟨"username1", "VARCHAR(255)", true, RawDefault.nullv, DataType.string,
      false, false, none, none⟩]
  else []

/-- Catalog of the `_Country` fixture table with a single-column primary key
(describeTable.test.js lines 183-213). -/
def countryCatalog : Catalog := fun t =>
  if t = ⟨"_Country", none⟩ then
    [⟨"code", "VARCHAR(255)", false, RawDefault.nullv, DataType.string,
      true, false, none, none⟩,
     ⟨"name", "VARCHAR(255)", false, RawDefault.nullv, DataType.string,
      false, false, none, none⟩]
  else []

/-- Catalog of the `_Alumni` fixture table with the composite primary key
`(year, num)` (describeTable.test.js lines 192-224). -/
def alumniCatalog : Catalog := fun t =>
  if t = ⟨"_Alumni", none⟩ then
    [⟨"year", "INTEGER", false, RawDefault.nullv, DataType.integer,
      true, false, none, none⟩,
     ⟨"num", "INTEGER", false, RawDefault.nullv, DataType.integer,
      true, false, none, none⟩,
     ⟨"username", "VARCHAR(255)", false, RawDefault.nullv, DataType.string,
      false, false, none, none⟩,
     ⟨"dob", "DATE", false, RawDefault.nullv, DataType.date,
      false, false, none, none⟩,
     ⟨"dod", "DATE", true, RawDefault.nullv, DataType.date,
      false, false, none, none⟩,
     ⟨"city", "VARCHAR(255)", false, RawDefault.nullv, DataType.string,
      false, false, none, none⟩,
     ⟨"ctrycod", "VARCHAR(255)", false, RawDefault.nullv, DataType.string,
      false, false, none, none⟩]
  else []

/-- Foreign-key target of a SQLite column description
(src/dialects/sqlite/query-interface.types.ts lines 6-9). -/
structure SqliteReference where
  table : String
  key : String
deriving DecidableEq

/-- Constraint Shadow Store entry (spec section 3): unique/foreign-key
declarations tracked outside the live catalog for restricted-ALTER backends. -/
structure ConstraintShadowEntry where
  table : String
  column : String
  unique : Option Bool
  foreignKey : Option SqliteReference
deriving DecidableEq

/-- SQLite column description: the base description extended with the two
optional constraint fields
(src/dialects/sqlite/query-interface.types.ts lines 4-10). -/
structure SqliteColumnDescription extends ColumnDescription where
  unique : Option Bool := none
  references : Option SqliteReference := none
deriving DecidableEq

/-- Modelled from the spec: the shadow-store overlay of the Column
Description Builder (spec sections 4.4 and 4.5), not part of the source
excerpt. A matching shadow entry supplies `unique`/`references`; absence of
an entry means no extra constraint, never an error. -/
def overlayShadow (base : ColumnDescription)
    (entries : List ConstraintShadowEntry) (tbl col : String) :
    SqliteColumnDescription :=
  match entries.find? (fun e => e.table == tbl && e.column == col) with
  | none => { toColumnDescription := base }
  | some e =>
    { toColumnDescription := base, unique := e.unique, references := e.foreignKey }

/-- Modelled from the spec: the SQLite variant of the builder, overlaying
shadow-store constraints on every catalog row (spec section 4.5). -/
def sqliteDescCols (c : Catalog) (shadow : List ConstraintShadowEntry)
    (t : TableIdentifier) : List (String × SqliteColumnDescription) :=
  (c t).map (fun r => (r.name, overlayShadow (buildColumn r) shadow t.tableName r.name))

/-- Rendered form of the sequence-based autoincrement default reported by the
backend (describeTable.test.js line 424). -/
def nextvalRendered : String :=
  "nextval(" ++ String.singleton quoteChar ++ "user_autoincrement_id_seq" ++
    String.singleton quoteChar ++ "::regclass)"

theorem scanQuoted_escape (v rest : List Char) (h : rest.head? ≠ some quoteChar) :
    scanQuoted (escapeChars v ++ quoteChar :: rest) = some (v, rest) := by
  induction v with
  | nil =>
    cases rest with
    | nil => simp [escapeChars, scanQuoted]
    | cons c cs =>
      have hc : ¬ c = quoteChar := by simpa using h
      simp [escapeChars, scanQuoted, hc]
  | cons a v ih =>
    rcases eq_or_ne a quoteChar with ha | ha
    · subst ha
      simp [escapeChars, scanQuoted, ih]
    · have hsplit : escapeChars (a :: v) ++ quoteChar :: rest
          = a :: (escapeChars v ++ quoteChar :: rest) := by
        simp [escapeChars, ha]
      rw [hsplit]
      cases hx : escapeChars v ++ quoteChar :: rest with
      | nil => exact absurd hx (by simp)
      | cons b bs =>
        rw [hx] at ih
        rw [scanQuoted.eq_3, if_neg ha, ih]
        rfl

theorem parseText_renderString (v : String) :
    parseText DataType.string (renderString v) = Parsed.str v := by
  have hscan : scanQuoted (escapeChars v.data ++ quoteChar :: castSuffix)
      = some (v.data, castSuffix) :=
    scanQuoted_escape v.data castSuffix (by decide)
  have hcast : castOk castSuffix = true := by decide
  have heta : (⟨v.data⟩ : String) = v := rfl
  simp [parseText, renderString, unquoteWithCast, hscan, hcast, heta]

theorem parseText_renderString_text (v : String) :
    parseText DataType.text (renderString v) = Parsed.str v := by
  have hscan : scanQuoted (escapeChars v.data ++ quoteChar :: castSuffix)
      = some (v.data, castSuffix) :=
    scanQuoted_escape v.data castSuffix (by decide)
  have hcast : castOk castSuffix = true := by decide
  have heta : (⟨v.data⟩ : String) = v := rfl
  simp [parseText, renderString, unquoteWithCast, hscan, hcast, heta]

theorem descCols_eq (c : Catalog) (t : TableIdentifier) :
    descCols c t = (c t).map (fun r => (r.name, buildColumn r)) := by
  cases h : c t with
  | nil => simp [descCols, describeTable, h]
  | cons r rs => simp [descCols, describeTable, h]

theorem filter_pk_aux (rows : List CatalogRow) :
    ((rows.map (fun r => (r.name, buildColumn r))).filter (fun p => p.2.primaryKey)).map Prod.fst
      = (rows.filter (fun r => r.isPrimaryKey)).map CatalogRow.name := by
  induction rows with
  | nil => rfl
  | cons r rs ih =>
    have hb : (buildColumn r).primaryKey = r.isPrimaryKey := rfl
    cases hr : r.isPrimaryKey <;> simp [List.filter_cons, hb, hr, ih]

theorem names_aux (rows : List CatalogRow) :
    (rows.map (fun r => (r.name, buildColumn r))).map Prod.fst = rows.map CatalogRow.name := by
  rw [List.map_map]
  rfl

/-- C1: a table identifier whose catalog query returns zero rows makes
describeTable fail with the exact TableNotFoundError message, the schema
clause included iff a schema is present in the resolved identifier. -/
theorem describeTable_not_found (c : Catalog) (t : TableIdentifier) (h : c t = []) :
    describeTable c t =
      Except.error ("No description found for table " ++ t.tableName ++
        (match t.schema with
          | some s => " in schema " ++ s
          | none => "") ++
        ". Check the table name and schema; remember, they _are_ case sensitive.") := by
  simp [describeTable, h, tableNotFoundMessage]

/-- Witness for C1: a concrete missing table with a schema. -/
theorem describeTable_not_found_witness :
    describeTable (fun _ => []) ⟨"_some_random_missing_table", some "test_meta"⟩ =
      Except.error ("No description found for table " ++ "_some_random_missing_table" ++
        (" in schema " ++ "test_meta") ++
        ". Check the table name and schema; remember, they _are_ case sensitive.") := by
  have h := describeTable_not_found (fun _ => [])
    ⟨"_some_random_missing_table", some "test_meta"⟩ rfl
  simpa using h

/-- C2 counterexample: on mysql (and every non-sqlite backend) a column
declared without a default is reported by describeTable with
defaultValue raw null / parsed null, not raw undefined / parsed undefined. -/
theorem noDefault_reported_null_on_mysql :
    describeTable (usersCatalog Dialect.mysql) ⟨"_Users", none⟩ =
      Except.ok [("isAdmin",
        ⟨"TINYINT(1)", true, ⟨RawDefault.nullv, Parsed.nullv⟩, false, false, none, none⟩)] ∧
    DefaultValue.mk RawDefault.nullv Parsed.nullv ≠ ⟨RawDefault.undef, Parsed.undef⟩ := by
  constructor
  · rfl
  · decide

/-- C2 amended: the normalizer never conflates an absent raw default
(undefined/undefined) with the catalog NULL token (null/null); a column
declared without a default is reported undefined/undefined on sqlite, which
omits the default concept, while backends whose catalog reports SQL NULL for
a missing default yield null/null. -/
theorem absent_vs_null_distinguished :
    (∀ t : DataType, normalize RawDefault.undef t = ⟨RawDefault.undef, Parsed.undef⟩) ∧
    (∀ t : DataType, normalize RawDefault.nullv t = ⟨RawDefault.nullv, Parsed.nullv⟩) ∧
    (∀ t : DataType, normalize RawDefault.undef t ≠ normalize RawDefault.nullv t) ∧
    describeTable (usersCatalog Dialect.sqlite) ⟨"_Users", none⟩ =
      Except.ok [("isAdmin",
        ⟨"TINYINT(1)", true, ⟨RawDefault.undef, Parsed.undef⟩, false, false, none, none⟩)] ∧
    describeTable (usersCatalog Dialect.mysql) ⟨"_Users", none⟩ =
      Except.ok [("isAdmin",
        ⟨"TINYINT(1)", true, ⟨RawDefault.nullv, Parsed.nullv⟩, false, false, none, none⟩)] := by
  refine ⟨fun t => rfl, fun t => rfl, fun t h => ?_, rfl, rfl⟩
  exact RawDefault.noConfusion (congrArg DefaultValue.raw h)

/-- C3: every string default value round-trips through the backend's
rendering (quote doubling, surrounding quotes, trailing cast) and the
normalizer, including quotes, backslashes, cast-like sequences and the
textual value NULL, which is never coerced to SQL NULL. -/
theorem string_default_round_trip :
    (∀ v : String, normalize (RawDefault.text (renderString v)) DataType.string
        = ⟨RawDefault.text (renderString v), Parsed.str v⟩) ∧
    (∀ v : String, (normalize (RawDefault.text (renderString v)) DataType.text).parsed
        = Parsed.str v) ∧
    (normalize (RawDefault.text (renderString "NULL")) DataType.string).parsed
        = Parsed.str "NULL" ∧
    (normalize (RawDefault.text (renderString "")) DataType.string).parsed
        = Parsed.str "" := by
  refine ⟨fun v => ?_, fun v => parseText_renderString_text v,
    parseText_renderString "NULL", parseText_renderString ""⟩
  show DefaultValue.mk (RawDefault.text (renderString v))
      (parseText DataType.string (renderString v)) = _
  rw [parseText_renderString v]

/-- C4: the columns reported with primaryKey true are exactly the catalog's
key-member rows, in order; the Alumni fixture's composite key reports
exactly its two columns and the Country fixture's single key exactly one. -/
theorem primaryKey_columns_exact :
    (∀ (c : Catalog) (t : TableIdentifier),
        ((descCols c t).filter (fun p => p.2.primaryKey)).map Prod.fst
          = ((c t).filter (fun r => r.isPrimaryKey)).map CatalogRow.name) ∧
    ((descCols alumniCatalog ⟨"_Alumni", none⟩).filter
        (fun p => p.2.primaryKey)).map Prod.fst = ["year", "num"] ∧
    ((descCols countryCatalog ⟨"_Country", none⟩).filter
        (fun p => p.2.primaryKey)).map Prod.fst = ["code"] := by
  refine ⟨fun c t => ?_, by rfl, by rfl⟩
  rw [descCols_eq]
  exact filter_pk_aux (c t)

/-- C5: the normalizer keeps the verbatim backend text as raw for every
textual default clause, and non-literal expressions (function calls,
sequence references) parse to undefined, never partially evaluated. -/
theorem expression_default_unparsed :
    (∀ (s : String) (t : DataType),
        (normalize (RawDefault.text s) t).raw = RawDefault.text s) ∧
    normalize (RawDefault.text "now()") DataType.date
      = ⟨RawDefault.text "now()", Parsed.undef⟩ ∧
    (normalize (RawDefault.text "getdate()") DataType.date).parsed = Parsed.undef ∧
    (normalize (RawDefault.text nextvalRendered) DataType.integer).parsed
      = Parsed.undef := by
  exact ⟨fun s t => rfl, by decide, by decide, by decide⟩

/-- C6: a literal numeric default of a fixed-precision decimal column parses
to the exact decimal string, losing no precision. -/
theorem decimal_default_exact (p k : Nat) (s : String) (h : decLit s.data = true) :
    (normalize (RawDefault.text s) (DataType.decimal p k)).parsed = Parsed.str s := by
  show parseText (DataType.decimal p k) s = Parsed.str s
  simp [parseText, h]

/-- Witness for C6: a DECIMAL(10,2) default of 99.00 parses to the string
99.00 exactly. -/
theorem decimal_default_exact_witness :
    (normalize (RawDefault.text "99.00") (DataType.decimal 10 2)).parsed
      = Parsed.str "99.00" :=
  decimal_default_exact 10 2 "99.00" (by decide)

/-- C7: supplying the schema as the second positional facade argument is
observationally identical to supplying it inside the structured identifier. -/
theorem positional_schema_equivalent (c : Catalog) (ds : Option String) (nm sch : String) :
    describeTableFacade c ds (TableRef.name nm) (some sch)
      = describeTableFacade c ds (TableRef.ident ⟨nm, some sch⟩) none := rfl

/-- C8: describeTable returns exactly the columns the catalog lists for the
resolved identifier, so two same-named tables in different schemas are
introspected independently, as in the my_tables fixture. -/
theorem schema_isolation :
    (∀ (c : Catalog) (t : TableIdentifier),
        (descCols c t).map Prod.fst = (c t).map CatalogRow.name) ∧
    (descCols myTablesCatalog ⟨"my_tables", some "test_meta"⟩).map Prod.fst
      = ["username2"] ∧
    (descCols myTablesCatalog ⟨"my_tables", none⟩).map Prod.fst = ["username1"] := by
  refine ⟨fun c t => ?_, by rfl, by rfl⟩
  rw [descCols_eq]
  exact names_aux (c t)

/-- C9: boolean literal default tokens round-trip through the normalizer to
the declared boolean value, and a NULL boolean default parses to null. -/
theorem boolean_default_round_trip :
    (∀ b : Bool, normalize (RawDefault.text (renderBool b)) DataType.boolean
        = ⟨RawDefault.text (renderBool b), Parsed.bool b⟩) ∧
    normalize RawDefault.nullv DataType.boolean
      = ⟨RawDefault.nullv, Parsed.nullv⟩ := by
  refine ⟨fun b => ?_, rfl⟩
  cases b <;> decide

/-- C10: a SQLite column description is the base description plus at most
the two optional fields unique and references; the shadow overlay never
alters the base description, absence of a shadow entry means no extra
constraint rather than an error, and the builder keeps every catalog column
in order. -/
theorem sqlite_description_shape :
    (∀ d : SqliteColumnDescription,
        d = ⟨d.toColumnDescription, d.unique, d.references⟩) ∧
    (∀ (base : ColumnDescription) (entries : List ConstraintShadowEntry) (tbl col : String),
        (overlayShadow base entries tbl col).toColumnDescription = base) ∧
    (∀ (base : ColumnDescription) (tbl col : String),
        overlayShadow base [] tbl col = ⟨base, none, none⟩) ∧
    (∀ (c : Catalog) (shadow : List ConstraintShadowEntry) (t : TableIdentifier),
        (sqliteDescCols c shadow t).map Prod.fst = (c t).map CatalogRow.name) := by
  refine ⟨fun d => rfl, fun base entries tbl col => ?_, fun base tbl col => rfl,
    fun c shadow t => ?_⟩
  · cases h : entries.find? (fun e => e.table == tbl && e.column == col) <;>
      simp [overlayShadow, h]
  · unfold sqliteDescCols
    rw [List.map_map]
    rfl

end Spec2Proof
